import Mathlib

/-!
Verification of the fmaas-router gateway (IBM/text-generation-router).

Shallow embedding of the routing and OpenAI-adaptation layer:
* protobuf-level data (stop reasons, token infos, streaming generation
  responses) as plain Lean structures; `f32` values are modelled as `ℚ`
  (the router only compares and copies them; no NaN inputs are considered),
  `u32`/`u64` counters as `ℕ`;
* the OpenAI chat/completions adapter of `src/openai/chat.rs` and
  `src/openai/completions.rs`: logprobs assembly, parameter mapping,
  and the SSE streaming bridges, the latter as functions from the list of
  upstream stream items to the list of emitted SSE events (a `Bool` flag
  records whether the generator panicked, i.e. aborted, instead of
  finishing);
* the NLP and info RPC facades of `src/rpc/nlp.rs` and `src/rpc/info.rs`,
  with the upstream clients abstracted as oracle functions and registry
  membership as a `String → Bool` predicate;
* the model-map accessors and the chat-template pipeline of `src/lib.rs`
  (a Rust panic is modelled as `none` / a dedicated `panicked` outcome).
-/

/-- protobuf enum `fmaas.StopReason`. -/
inductive StopReason where
  | NotFinished
  | MaxTokens
  | EosToken
  | StopSequence
  | TokenLimit
  | Cancelled
  | TimeLimit
  | Error
  deriving DecidableEq, Repr

/-- protobuf message `fmaas.TokenInfo.TopToken`: a candidate token with its logprob. -/
structure TopToken where
  text : String
  logprob : ℚ
  deriving DecidableEq, Repr

/-- protobuf message `fmaas.TokenInfo`. -/
structure TokenInfo where
  text : String
  logprob : ℚ
  top_tokens : List TopToken
  deriving DecidableEq, Repr

/-- One item of the upstream `GenerateStream` response stream
(protobuf message `fmaas.GenerationResponse`), with the fields the
adapter reads. -/
structure GenerationStreamResponse where
  input_token_count : ℕ
  generated_token_count : ℕ
  text : String
  stop_reason : StopReason
  input_tokens : List TokenInfo
  tokens : List TokenInfo
  deriving DecidableEq, Repr

/-- gRPC status codes used by the router. -/
inductive Code where
  | InvalidArgument
  | NotFound
  | Unimplemented
  deriving DecidableEq, Repr

/-- A gRPC error status (`tonic::Status`). -/
structure Status where
  code : Code
  message : String
  deriving DecidableEq, Repr

/-- OpenAI `usage` object (field order as in the Rust struct usage sites:
`completion_tokens`, `prompt_tokens`, `total_tokens`). -/
structure Usage where
  completion_tokens : ℕ
  prompt_tokens : ℕ
  total_tokens : ℕ
  deriving DecidableEq, Repr

/-- A chat message (OpenAI `Message`): role, content, optional name. -/
structure Message where
  role : String
  content : String
  name : Option String := none
  deriving DecidableEq, Repr

/-- OpenAI-style `stop` field: a single string or a list of strings. -/
inductive StopTokens where
  | array (tokens : List String)
  | str (token : String)
  deriving DecidableEq, Repr

/-- An emitted server-sent event: either a JSON-encoded payload
(`Event::default().json_data(v)`) or a plain data event
(`Event::default().data(s)`). -/
inductive SseEvent (α : Type) where
  | json (payload : α)
  | data (s : String)
  deriving DecidableEq, Repr

/-- `ChatCompletionMessage`: delta/message carried by a chat choice. -/
structure ChatCompletionMessage where
  role : Option String
  content : Option String
  deriving DecidableEq, Repr

/-- One entry of chat `top_logprobs`. -/
structure ChatCompletionTopLogprob where
  token : String
  logprob : ℚ
  deriving DecidableEq, Repr

/-- Per-token chat logprob entry. -/
structure ChatCompletionLogprob where
  token : String
  logprob : ℚ
  top_logprobs : Option (List ChatCompletionTopLogprob)
  deriving DecidableEq, Repr

/-- Chat logprobs object: `content` holds one entry per emitted token. -/
structure ChatCompletionLogprobs where
  content : List ChatCompletionLogprob
  deriving DecidableEq, Repr

/-- One streamed chat chunk choice. -/
structure ChatCompletionChunkChoice where
  delta : ChatCompletionMessage
  index : ℕ
  logprobs : Option ChatCompletionLogprobs
  finish_reason : Option String
  deriving DecidableEq, Repr

/-- One streamed chat chunk (`object = "chat.completion.chunk"`). -/
structure ChatCompletionChunk where
  id : String
  choices : List ChatCompletionChunkChoice
  created : ℤ
  model : String
  object : String
  usage : Option Usage
  deriving DecidableEq, Repr

/-- OpenAI chat completions request, with the fields the router reads. -/
structure ChatCompletionRequest where
  model : String
  messages : List Message
  best_of : Option ℕ := none
  use_beam_search : Option Bool := none
  stream : Option Bool := none
  temperature : Option ℚ := none
  top_k : Option ℕ := none
  top_p : Option ℚ := none
  seed : Option ℕ := none
  max_tokens : Option ℕ := none
  min_tokens : Option ℕ := none
  stop : Option StopTokens := none
  repetition_penalty : Option ℚ := none
  logprobs : Option Bool := none
  top_logprobs : Option ℕ := none
  deriving Repr

/-- Completions logprobs object (parallel arrays; `top_logprobs` is a list
of insertion-ordered maps, modelled as association lists). -/
structure CompletionLogprobs where
  text_offset : List ℕ
  token_logprobs : List ℚ
  tokens : List String
  top_logprobs : Option (List (List (String × ℚ)))
  deriving DecidableEq, Repr

/-- One completions choice. -/
structure CompletionChoice where
  index : ℕ
  text : Option String
  logprobs : Option CompletionLogprobs
  finish_reason : Option String
  deriving DecidableEq, Repr

/-- OpenAI completions response (`object = "text_completion"`); in streaming
mode every chunk is itself a `CompletionResponse`. -/
structure CompletionResponse where
  id : String
  object : String
  created : ℤ
  model : String
  system_fingerprint : Option String
  choices : List CompletionChoice
  usage : Option Usage
  deriving DecidableEq, Repr

/-- OpenAI completions request, with the fields the router reads. -/
structure CompletionRequest where
  model : String
  prompt : String
  best_of : Option ℕ := none
  use_beam_search : Option Bool := none
  stream : Option Bool := none
  temperature : Option ℚ := none
  top_k : Option ℕ := none
  top_p : Option ℚ := none
  seed : Option ℕ := none
  max_tokens : Option ℕ := none
  min_tokens : Option ℕ := none
  stop : Option StopTokens := none
  repetition_penalty : Option ℚ := none
  echo : Option Bool := none
  logprobs : Option ℕ := none
  deriving Repr

/-- Key-value insert with "last write wins" semantics on the value while
keeping one entry per key: model of inserting into a Rust `HashMap` /
`IndexMap` (for the claims proved here only the key set and the multiset
of values matter, never the bucket order). -/
def insertKV (acc : List (String × ℚ)) (k : String) (v : ℚ) : List (String × ℚ) :=
  match acc with
  | [] => [(k, v)]
  | (k₀, v₀) :: rest =>
    if k₀ = k then (k₀, v) :: rest else (k₀, v₀) :: insertKV rest k v

/-- Collect a pair sequence into a map, later entries overwriting earlier
ones with the same key (`collect::<HashMap<_, _>>()`). -/
def collectMap (l : List (String × ℚ)) : List (String × ℚ) :=
  l.foldl (fun acc p => insertKV acc p.1 p.2) []

/-- Comparison used by `tokens.sort_by(|a, b| a.logprob.partial_cmp(&b.logprob))`
in `chat.rs::create_logprobs`. -/
def topLogprobLe (a b : ChatCompletionTopLogprob) : Prop :=
  a.logprob ≤ b.logprob

instance : DecidableRel topLogprobLe := fun a b => by
  unfold topLogprobLe; infer_instance

instance : IsTotal ChatCompletionTopLogprob topLogprobLe :=
  ⟨fun a b => le_total a.logprob b.logprob⟩

instance : IsTrans ChatCompletionTopLogprob topLogprobLe :=
  ⟨fun _ _ _ h₁ h₂ => le_trans h₁ h₂⟩

/-- `chat.rs::create_logprobs`: per-token top-k assembly for the chat
endpoint. The union of `top_tokens` with the chosen token is deduplicated
by token text (the chained chosen token is inserted last, so it wins), then
sorted ascending by logprob (`sort_by` is a stable sort, modelled by
`insertionSort`). -/
def chatTopLogprobs (token_info : TokenInfo) (n_logprobs : ℕ) :
    Option (List ChatCompletionTopLogprob) :=
  if n_logprobs > 0 then
    let pairs := collectMap
      (token_info.top_tokens.map (fun t => (t.text, t.logprob)) ++
        [(token_info.text, token_info.logprob)])
    let toks := pairs.map fun p => ChatCompletionTopLogprob.mk p.1 p.2
    some (List.insertionSort topLogprobLe toks)
  else
    none

/-- The per-token entry built by the closure inside
`chat.rs::create_logprobs`. -/
def chatLogprobEntry (token_info : TokenInfo) (n_logprobs : ℕ) :
    ChatCompletionLogprob :=
  ChatCompletionLogprob.mk token_info.text token_info.logprob
    (chatTopLogprobs token_info n_logprobs)

def create_logprobs (tokens : List TokenInfo) (n_logprobs : ℕ) :
    Option ChatCompletionLogprobs :=
  if tokens.isEmpty then
    none
  else
    some (ChatCompletionLogprobs.mk
      (tokens.map fun token_info => chatLogprobEntry token_info n_logprobs))

/-- `completions.rs::create_logprobs`: parallel-array logprobs for the
completions endpoint. Per token, the union of `top_tokens` with the chosen
token is sorted ascending by logprob and then collected into an
insertion-ordered map (`IndexMap`), later duplicate keys overwriting the
value while keeping the original position. -/
def completions_create_logprobs (tokens : List TokenInfo) (n_logprobs : ℕ) :
    Option CompletionLogprobs :=
  if tokens.isEmpty then
    none
  else
    let token_text := tokens.map fun token_info => token_info.text
    let text_offset : List ℕ := []
    let token_logprobs := tokens.map fun token_info => token_info.logprob
    let top_logprobs :=
      if n_logprobs > 0 then
        some (tokens.map fun token_info =>
          let pairs := (token_info.top_tokens.map (fun t => (t.text, t.logprob)) ++
            [(token_info.text, token_info.logprob)]).insertionSort
              (fun a b => a.2 ≤ b.2)
          collectMap pairs)
      else
        none
    some (CompletionLogprobs.mk text_offset token_logprobs token_text top_logprobs)

/-- Finish-reason mapping native → OpenAI, as in the streaming adapters
(`NotFinished` maps to `none`). -/
def finishReasonOf : StopReason → Option String
  | .MaxTokens | .TokenLimit => some "length"
  | .StopSequence | .EosToken => some "stop"
  | .Cancelled | .TimeLimit | .Error => some "abort"
  | .NotFinished => none

/-- The longest prefix of upstream items matched by
`while let Some(Ok(response)) = response_stream.next().await`:
the loop body runs once per item of this prefix and the loop exits at the
first error item or at end of stream. -/
def takeOk : List (Except Status GenerationStreamResponse) →
    List GenerationStreamResponse
  | .ok r :: rest => r :: takeOk rest
  | _ => []

/-- Body chunk built per upstream message in
`TgisAdapter::chat_generate_stream`. -/
def mkChatChunk (request_id model_id : String) (created_time : ℤ)
    (n_logprobs prompt_tokens : ℕ) (r : GenerationStreamResponse) :
    ChatCompletionChunk :=
  let finish_reason := finishReasonOf r.stop_reason
  let usage : Option Usage :=
    if finish_reason.isSome then
      some (Usage.mk r.generated_token_count prompt_tokens
        (prompt_tokens + r.generated_token_count))
    else
      none
  { id := request_id
    choices := [{ delta := { role := none, content := some r.text }
                  index := 0
                  logprobs := create_logprobs r.tokens n_logprobs
                  finish_reason := finish_reason }]
    created := created_time
    model := model_id
    object := "chat.completion.chunk"
    usage := usage }

/-- The initial role-only chunk yielded by `chat_generate_stream` before the
first upstream message is read. -/
def roleChunk (request_id model_id : String) (created_time : ℤ) :
    ChatCompletionChunk :=
  { id := request_id
    choices := [{ delta := { role := some "assistant", content := none }
                  index := 0
                  logprobs := none
                  finish_reason := none }]
    created := created_time
    model := model_id
    object := "chat.completion.chunk"
    usage := none }

/-- `TgisAdapter::chat_generate_stream` as a function from the list of
upstream stream items to the emitted SSE events. The second component is
`true` when the generator panicked (`next().await.unwrap().unwrap()` on a
missing or error first message) and so aborted without finishing. After the
first message, the `while let Some(Ok(..))` loop consumes the longest `Ok`
prefix and the trailing `[DONE]` data event is emitted unconditionally. -/
def chat_generate_stream (request_id : String) (created_time : ℤ)
    (req : ChatCompletionRequest)
    (upstream : List (Except Status GenerationStreamResponse)) :
    List (SseEvent ChatCompletionChunk) × Bool :=
  let n_logprobs := req.top_logprobs.getD 0
  let first_event := SseEvent.json (roleChunk request_id req.model created_time)
  match upstream with
  | .ok first :: rest =>
    let prompt_tokens := if first.input_token_count > 0 then first.input_token_count else 0
    (first_event ::
      (takeOk rest).map (fun r =>
        SseEvent.json (mkChatChunk request_id req.model created_time n_logprobs prompt_tokens r)) ++
      [SseEvent.data "[DONE]"],
     false)
  | _ => ([first_event], true)

/-- Body chunk built per upstream message in `TgisAdapter::generate_stream`
(completions). `input_text` / `input_tokens` are the buffered echo prefixes
(`Option::take` semantics: the caller passes `none` for every chunk after
the first). -/
def mkCompletionChunk (request_id model_id : String) (created_time : ℤ)
    (n_logprobs prompt_tokens : ℕ) (input_text : Option String)
    (input_tokens : Option (List TokenInfo)) (r : GenerationStreamResponse) :
    CompletionResponse :=
  let finish_reason := finishReasonOf r.stop_reason
  let usage : Option Usage :=
    if finish_reason.isSome then
      some (Usage.mk r.generated_token_count prompt_tokens
        (prompt_tokens + r.generated_token_count))
    else
      none
  let text :=
    match input_text with
    | some t => t ++ r.text
    | none => r.text
  let tokens :=
    match input_tokens with
    | some ts => ts ++ r.tokens
    | none => r.tokens
  { id := request_id
    object := "text_completion"
    created := created_time
    model := model_id
    system_fingerprint := none
    choices := [{ index := 0
                  text := some text
                  logprobs := completions_create_logprobs tokens n_logprobs
                  finish_reason := finish_reason }]
    usage := usage }

/-- The body loop of `TgisAdapter::generate_stream`: one chunk per upstream
message; the buffered echo prefixes are consumed by the first chunk
(`input_text.take()` / `input_tokens.take()` leave `none` behind). -/
def completionChunks (request_id model_id : String) (created_time : ℤ)
    (n_logprobs prompt_tokens : ℕ) (input_text : Option String)
    (input_tokens : Option (List TokenInfo)) :
    List GenerationStreamResponse → List CompletionResponse
  | [] => []
  | r :: rest =>
    mkCompletionChunk request_id model_id created_time n_logprobs prompt_tokens
      input_text input_tokens r ::
    completionChunks request_id model_id created_time n_logprobs prompt_tokens
      none none rest

/-- `TgisAdapter::generate_stream` as a function from the upstream stream
items to the emitted SSE events, with a panic flag as in
`chat_generate_stream`. The first upstream message is always consumed for
`input_token_count` (and, when `echo`, its `text`); when `echo`, the second
message is consumed for its `input_tokens`; a missing or error message at
either point panics. The loop then consumes the longest `Ok` prefix and the
`[DONE]` data event follows unconditionally. -/
def generate_stream (request_id : String) (created_time : ℤ)
    (req : CompletionRequest)
    (upstream : List (Except Status GenerationStreamResponse)) :
    List (SseEvent CompletionResponse) × Bool :=
  let echo := req.echo.getD false
  let n_logprobs := req.logprobs.getD 0
  match upstream with
  | .ok first :: rest =>
    let prompt_tokens := if first.input_token_count > 0 then first.input_token_count else 0
    let input_text := if echo then some first.text else none
    if echo then
      match rest with
      | .ok second :: rest₂ =>
        ((completionChunks request_id req.model created_time n_logprobs
            prompt_tokens input_text (some second.input_tokens) (takeOk rest₂)).map
            SseEvent.json ++ [SseEvent.data "[DONE]"],
         false)
      | _ => ([], true)
    else
      ((completionChunks request_id req.model created_time n_logprobs
          prompt_tokens input_text none (takeOk rest)).map
          SseEvent.json ++ [SseEvent.data "[DONE]"],
       false)
  | _ => ([], true)

/-- Native decoding method (protobuf enum `fmaas.DecodingMethod`;
`Greedy = 0`, `Sample = 1`; the Rust code stores the integer tag). -/
inductive DecodingMethod where
  | Greedy
  | Sample
  deriving DecidableEq, Repr

/-- protobuf `fmaas.SamplingParameters`. -/
structure SamplingParameters where
  temperature : ℚ
  top_k : ℕ
  top_p : ℚ
  typical_p : ℚ
  seed : Option ℕ
  deriving DecidableEq, Repr

/-- protobuf `fmaas.StoppingCriteria`. -/
structure StoppingCriteria where
  max_new_tokens : ℕ
  min_new_tokens : ℕ
  time_limit_millis : ℕ
  stop_sequences : List String
  include_stop_sequence : Option Bool
  deriving DecidableEq, Repr

/-- protobuf `fmaas.ResponseOptions`. -/
structure ResponseOptions where
  input_text : Bool
  generated_tokens : Bool
  input_tokens : Bool
  token_logprobs : Bool
  token_ranks : Bool
  top_n_tokens : ℕ
  deriving DecidableEq, Repr

/-- protobuf `fmaas.DecodingParameters` (length penalty unset by the
router, modelled as an always-`none` option). -/
structure DecodingParameters where
  repetition_penalty : ℚ
  length_penalty : Option Unit
  deriving DecidableEq, Repr

/-- protobuf `fmaas.Parameters`. -/
structure Parameters where
  method : DecodingMethod
  sampling : Option SamplingParameters
  stopping : Option StoppingCriteria
  response : Option ResponseOptions
  decoding : Option DecodingParameters
  truncate_input_tokens : ℕ
  beam : Option Unit
  deriving DecidableEq, Repr

/-- Modelled from the spec: `SAMPLING_EPS` is declared in the OpenAI module
root (`src/openai/mod.rs`), which is not part of the provided sources; the
spec describes it as "an implementation-defined small positive constant".
It is modelled as `10⁻⁵`. -/
def SAMPLING_EPS : ℚ := 1 / 100000

/-- `impl From<ChatCompletionRequest> for Parameters` (`chat.rs`). -/
def chatParameters (req : ChatCompletionRequest) : Parameters :=
  let temperature := req.temperature.getD 1
  let method :=
    if temperature ≥ SAMPLING_EPS ∨ req.seed.isSome then
      DecodingMethod.Sample
    else
      DecodingMethod.Greedy
  let sampling : SamplingParameters :=
    { temperature := temperature
      top_k := req.top_k.getD 0
      top_p := req.top_p.getD 1
      typical_p := 0
      seed := req.seed }
  let stopping : StoppingCriteria :=
    { max_new_tokens := req.max_tokens.getD 16
      min_new_tokens := req.min_tokens.getD 0
      time_limit_millis := 0
      stop_sequences :=
        match req.stop with
        | some (.array tokens) => tokens
        | some (.str token) => [token]
        | none => []
      include_stop_sequence := none }
  let generated_tokens := req.logprobs.getD false
  let token_logprobs := generated_tokens
  let top_n_tokens := if generated_tokens then req.top_logprobs.getD 1 else 0
  let response : ResponseOptions :=
    { input_text := false
      generated_tokens := generated_tokens
      input_tokens := false
      token_logprobs := token_logprobs
      token_ranks := false
      top_n_tokens := top_n_tokens }
  let decoding : DecodingParameters :=
    { repetition_penalty := req.repetition_penalty.getD 0
      length_penalty := none }
  { method := method
    sampling := some sampling
    stopping := some stopping
    response := some response
    decoding := some decoding
    truncate_input_tokens := 0
    beam := none }

/-- `impl From<CompletionRequest> for Parameters` (`completions.rs`). -/
def completionParameters (req : CompletionRequest) : Parameters :=
  let temperature := req.temperature.getD 1
  let method :=
    if temperature ≥ SAMPLING_EPS ∨ req.seed.isSome then
      DecodingMethod.Sample
    else
      DecodingMethod.Greedy
  let sampling : SamplingParameters :=
    { temperature := temperature
      top_k := req.top_k.getD 0
      top_p := req.top_p.getD 1
      typical_p := 0
      seed := req.seed }
  let stopping : StoppingCriteria :=
    { max_new_tokens := req.max_tokens.getD 16
      min_new_tokens := req.min_tokens.getD 0
      time_limit_millis := 0
      stop_sequences :=
        match req.stop with
        | some (.array tokens) => tokens
        | some (.str token) => [token]
        | none => []
      include_stop_sequence := none }
  let input_text := req.echo.getD false
  let generated_tokens := req.logprobs.isSome
  let token_logprobs := generated_tokens
  let input_tokens := input_text && generated_tokens
  let top_n_tokens := req.logprobs.getD 0
  let response : ResponseOptions :=
    { input_text := input_text
      generated_tokens := generated_tokens
      input_tokens := input_tokens
      token_logprobs := token_logprobs
      token_ranks := false
      top_n_tokens := top_n_tokens }
  let decoding : DecodingParameters :=
    { repetition_penalty := req.repetition_penalty.getD 0
      length_penalty := none }
  { method := method
    sampling := some sampling
    stopping := some stopping
    response := some response
    decoding := some decoding
    truncate_input_tokens := 0
    beam := none }

/-- A service address (`lib.rs::ServiceAddr`). -/
structure ServiceAddr where
  hostname : String
  port : Option ℕ
  deriving DecidableEq, Repr

/-- A compiled chat template (`lib.rs::ChatTemplate`): the two literal
tokens plus the compiled template, the latter represented by its rendering
behaviour — the external minijinja engine's `Template::render` outcome on a
message list (`Except.error msg` for a render error, e.g. a
`raise_exception` call). -/
structure ChatTemplate where
  bos_token : String
  eos_token : String
  renderResult : List Message → Except String String

/-- `lib.rs::ModelMapV1`: the legacy flat mapping (generation models only).
`HashMap` is modelled as an association list. -/
structure ModelMapV1 where
  map : List (String × ServiceAddr)

/-- `lib.rs::ModelMapV2`: the current schema with three sub-mappings. -/
structure ModelMapV2 where
  generation : List (String × ServiceAddr)
  embeddings : List (String × ServiceAddr)
  chat_templates : List (String × ChatTemplate)

/-- `lib.rs::ModelMap`: the untagged union of both schemas. -/
inductive ModelMap where
  | V1 (v : ModelMapV1)
  | V2 (v : ModelMapV2)

/-- `ModelMap::generation`. -/
def ModelMap.generation : ModelMap → Option (List (String × ServiceAddr))
  | .V1 v => some v.map
  | .V2 v => if v.generation.isEmpty then none else some v.generation

/-- `ModelMap::embeddings`. -/
def ModelMap.embeddings : ModelMap → Option (List (String × ServiceAddr))
  | .V1 _ => none
  | .V2 v => if v.embeddings.isEmpty then none else some v.embeddings

/-- `ModelMap::chat_templates`. On the legacy `V1` variant the source
executes `unimplemented!()`, i.e. panics — modelled as `none`; on `V2` it
returns the chat-template sub-mapping. -/
def ModelMap.chat_templates : ModelMap → Option (List (String × ChatTemplate))
  | .V1 _ => none
  | .V2 v => some v.chat_templates

/-- `ChatTemplate::render` calls `self.template.render(ctx).unwrap()`: a
render error is not surfaced, it panics — modelled as `none`. -/
def ChatTemplate.render (t : ChatTemplate) (messages : List Message) :
    Option String :=
  (t.renderResult messages).toOption

/-- Modelled from the spec: the evaluation, by the external minijinja
engine, of the alternating-role (Mistral) chat-template program of the
fixture in `lib.rs` (after per-line trimming and concatenation). Per
message at 0-based index `i`: raise if `(role == "user") != (i % 2 == 0)`,
output `"[INST] " + content + " [/INST]"` for a user message,
`content + eos_token` for an assistant message, raise otherwise. -/
def mistralParts (eos : String) : ℕ → List Message → Except String (List String)
  | _, [] => .ok []
  | i, m :: rest =>
    if (decide (m.role = "user")) ≠ (decide (i % 2 = 0)) then
      .error "Conversation roles must alternate user/assistant/user/assistant/..."
    else if m.role = "user" then
      (mistralParts eos (i + 1) rest).map
        (fun ps => ("[INST] " ++ m.content ++ " [/INST]") :: ps)
    else if m.role = "assistant" then
      (mistralParts eos (i + 1) rest).map (fun ps => (m.content ++ eos) :: ps)
    else
      .error "Only user and assistant roles are supported!"

/-- Modelled from the spec: full render of the Mistral fixture template —
the `bos_token` literal followed by the per-message outputs. -/
def mistralRenderResult (bos eos : String) (messages : List Message) :
    Except String String :=
  (mistralParts eos 0 messages).map (fun ps => bos ++ String.join ps)

/-- The router's HTTP application state, as consumed by the OpenAI
handlers: the set of model ids holding a generation client (the handle
itself is opaque), and the loaded model map. -/
structure AppState where
  generation_clients : List String
  model_map : ModelMap

/-- Outcome of the `chat_completions` handler. `reply` is an early HTTP
reply (status code and JSON string body); `dispatched prompt stream` means
the request reached the TGIS adapter with the rendered prompt;
`panicked` means a panic escaped the handler body. -/
inductive ChatHandlerOutcome where
  | reply (status : ℕ) (body : String)
  | dispatched (prompt : String) (stream : Bool)
  | panicked

/-- `chat.rs::chat_completions` routing logic: `best_of` /
`use_beam_search` guards, generation-client lookup, chat-template lookup,
prompt rendering (which panics on a template error) and dispatch. -/
def chat_completions (state : AppState) (request : ChatCompletionRequest) :
    ChatHandlerOutcome :=
  if request.best_of.isSome then
    .reply 501 "`best_of` is not yet implemented"
  else if (request.use_beam_search.getD false) then
    .reply 501 "`use_beam_search` is not yet implemented"
  else if ¬ state.generation_clients.contains request.model then
    .reply 422 ("Unrecognized model id `" ++ request.model ++ "`")
  else
    match state.model_map.chat_templates with
    | none => .panicked
    | some templates =>
      match templates.lookup request.model with
      | none =>
        .reply 422 ("Chat template not found for model id `" ++ request.model ++ "`")
      | some chat_template =>
        match chat_template.render request.messages with
        | none => .panicked
        | some prompt => .dispatched prompt (request.stream.getD false)

/-- An inbound gRPC request: metadata (association list of header key/value
pairs) plus the decoded body. -/
structure GrpcRequest (α : Type) where
  metadata : List (String × String)
  body : α

/-- The well-known metadata key carrying the model id. -/
def METADATA_NAME_MODEL_ID : String := "mm-model-id"

/-- `nlp.rs::extract_model_id`: read the model id from request metadata;
absence is an `INVALID_ARGUMENT` error. -/
def extract_model_id {α : Type} (request : GrpcRequest α) : Except Status String :=
  match request.metadata.lookup METADATA_NAME_MODEL_ID with
  | none => .error (Status.mk .InvalidArgument "Missing required model ID")
  | some v => .ok v

/-- The `NOT_FOUND` status produced by the `client` registry lookup helpers
of `nlp.rs` and `info.rs`. -/
def unrecognizedModelId (model_id : String) : Status :=
  Status.mk .NotFound ("Unrecognized model_id: " ++ model_id)

/-- caikit request body: `EmbeddingTasksRequest` (payload beyond the
emptiness-checked field is opaque to the router). -/
structure EmbeddingTasksRequest where
  texts : List String

/-- caikit request body: `EmbeddingTaskRequest`. -/
structure EmbeddingTaskRequest where
  text : String

/-- caikit request body: `RerankTasksRequest` (documents are opaque
payloads, modelled as strings). -/
structure RerankTasksRequest where
  documents : List String
  queries : List String

/-- caikit request body: `RerankTaskRequest`. -/
structure RerankTaskRequest where
  documents : List String
  query : String

/-- caikit request body: `SentenceSimilarityTasksRequest`. -/
structure SentenceSimilarityTasksRequest where
  source_sentences : List String
  sentences : List String

/-- caikit request body: `SentenceSimilarityTaskRequest`. -/
structure SentenceSimilarityTaskRequest where
  source_sentence : String
  sentences : List String

/-- caikit response: `EmbeddingResults` (its payload is opaque to the
router, which only constructs the `Default` value or relays the upstream
response verbatim). -/
structure EmbeddingResults where
  payload : List String := []
  deriving DecidableEq, Repr

/-- caikit response: `EmbeddingResult`. -/
structure EmbeddingResult where
  payload : List String := []
  deriving DecidableEq, Repr

/-- caikit response: `RerankResults`. -/
structure RerankResults where
  payload : List String := []
  deriving DecidableEq, Repr

/-- caikit response: `RerankResult`. -/
structure RerankResult where
  payload : List String := []
  deriving DecidableEq, Repr

/-- caikit response: `SentenceSimilarityResults`. -/
structure SentenceSimilarityResults where
  payload : List String := []
  deriving DecidableEq, Repr

/-- caikit response: `SentenceSimilarityResult`. -/
structure SentenceSimilarityResult where
  payload : List String := []
  deriving DecidableEq, Repr

/-- `NlpServicer::embedding_tasks_predict`: extract the model id from
metadata, short-circuit on an empty `texts` batch, look up the client
(`clients` is registry membership), then forward to the upstream oracle. -/
def embedding_tasks_predict (clients : String → Bool)
    (upstream : String → EmbeddingTasksRequest → Except Status EmbeddingResults)
    (request : GrpcRequest EmbeddingTasksRequest) :
    Except Status EmbeddingResults := do
  let model_id ← extract_model_id request
  if request.body.texts.isEmpty then
    return {}
  if clients model_id then
    upstream model_id request.body
  else
    .error (unrecognizedModelId model_id)

/-- `NlpServicer::embedding_task_predict`. -/
def embedding_task_predict (clients : String → Bool)
    (upstream : String → EmbeddingTaskRequest → Except Status EmbeddingResult)
    (request : GrpcRequest EmbeddingTaskRequest) :
    Except Status EmbeddingResult := do
  let model_id ← extract_model_id request
  if request.body.text.isEmpty then
    return {}
  if clients model_id then
    upstream model_id request.body
  else
    .error (unrecognizedModelId model_id)

/-- `NlpServicer::rerank_tasks_predict`. -/
def rerank_tasks_predict (clients : String → Bool)
    (upstream : String → RerankTasksRequest → Except Status RerankResults)
    (request : GrpcRequest RerankTasksRequest) :
    Except Status RerankResults := do
  let model_id ← extract_model_id request
  if request.body.documents.isEmpty ∨ request.body.queries.isEmpty then
    return {}
  if clients model_id then
    upstream model_id request.body
  else
    .error (unrecognizedModelId model_id)

/-- `NlpServicer::rerank_task_predict`. -/
def rerank_task_predict (clients : String → Bool)
    (upstream : String → RerankTaskRequest → Except Status RerankResult)
    (request : GrpcRequest RerankTaskRequest) :
    Except Status RerankResult := do
  let model_id ← extract_model_id request
  if request.body.documents.isEmpty ∨ request.body.query.isEmpty then
    return {}
  if clients model_id then
    upstream model_id request.body
  else
    .error (unrecognizedModelId model_id)

/-- `NlpServicer::sentence_similarity_tasks_predict`. -/
def sentence_similarity_tasks_predict (clients : String → Bool)
    (upstream :
      String → SentenceSimilarityTasksRequest → Except Status SentenceSimilarityResults)
    (request : GrpcRequest SentenceSimilarityTasksRequest) :
    Except Status SentenceSimilarityResults := do
  let model_id ← extract_model_id request
  if request.body.source_sentences.isEmpty ∨ request.body.sentences.isEmpty then
    return {}
  if clients model_id then
    upstream model_id request.body
  else
    .error (unrecognizedModelId model_id)

/-- `NlpServicer::sentence_similarity_task_predict`. -/
def sentence_similarity_task_predict (clients : String → Bool)
    (upstream :
      String → SentenceSimilarityTaskRequest → Except Status SentenceSimilarityResult)
    (request : GrpcRequest SentenceSimilarityTaskRequest) :
    Except Status SentenceSimilarityResult := do
  let model_id ← extract_model_id request
  if request.body.source_sentence.isEmpty ∨ request.body.sentences.isEmpty then
    return {}
  if clients model_id then
    upstream model_id request.body
  else
    .error (unrecognizedModelId model_id)

/-- caikit request body: `ModelInfoRequest`. -/
structure ModelInfoRequest where
  model_ids : List String
  deriving DecidableEq, Repr

/-- caikit response: `ModelInfoResponse`, with the per-model entries opaque
to the router (`α`): it only concatenates the upstream `models` arrays. -/
structure ModelInfoResponse (α : Type) where
  models : List α
  deriving DecidableEq, Repr

/-- The sequential fan-out loop of `InfoServicer::get_models_info`: for
each id in order, look up the client then dispatch a single-id sub-request
to the upstream oracle, aborting at the first failure (`?` operator). -/
def infoCollect {α : Type} (clients : String → Bool)
    (upstream : String → Except Status (ModelInfoResponse α)) :
    List String → Except Status (List (ModelInfoResponse α))
  | [] => .ok []
  | model :: rest =>
    if clients model then
      match upstream model with
      | .error e => .error e
      | .ok r => (infoCollect clients upstream rest).map (fun rs => r :: rs)
    else
      .error (unrecognizedModelId model)

/-- `InfoServicer::get_models_info`: empty `model_ids` short-circuits to
the default response; otherwise fan out per model id and concatenate the
upstream `models` arrays in input order. The request metadata is received
but never read. -/
def get_models_info {α : Type} (clients : String → Bool)
    (upstream : String → Except Status (ModelInfoResponse α))
    (request : GrpcRequest ModelInfoRequest) :
    Except Status (ModelInfoResponse α) :=
  if request.body.model_ids.isEmpty then
    .ok (ModelInfoResponse.mk [])
  else
    match infoCollect clients upstream request.body.model_ids with
    | .error e => .error e
    | .ok results => .ok (ModelInfoResponse.mk (results.map (fun r => r.models)).flatten)

/-- `InfoServicer::get_runtime_info`: always `UNIMPLEMENTED`, the request
(metadata included) is never inspected. -/
def get_runtime_info {α : Type} (_request : GrpcRequest α) :
    Except Status Unit :=
  .error (Status.mk .Unimplemented "not implemented")

/-- The compiled Mistral fixture template of `lib.rs` (bos `<s>`,
eos `</s>`, alternating-role source). -/
def mistralTemplate : ChatTemplate :=
  ChatTemplate.mk "<s>" "</s>" (mistralRenderResult "<s>" "</s>")

/-- The fixture model id. -/
def mistralModelId : String := "mistralai/mistral-7b-instruct-v0-2"

/-- App state holding a generation client and the fixture chat template for
the fixture model id. -/
def fixtureState : AppState :=
  AppState.mk [mistralModelId]
    (ModelMap.V2 (ModelMapV2.mk
      [(mistralModelId, ServiceAddr.mk "mistral-7b-instruct-v0-2-inference-server" none)]
      []
      [(mistralModelId, mistralTemplate)]))

/-- Faithfulness check of the modelled template evaluation against the
end-to-end fixture of `lib.rs::tests::test_render_chat_template`: the
three-message conversation renders to the exact expected prompt. -/
theorem mistral_template_fixture_render :
    mistralRenderResult "<s>" "</s>"
      [Message.mk "user" "Hey, how are you?" none,
       Message.mk "assistant" "Good. How can I help you?" none,
       Message.mk "user" "I'm just testing to make sure templating works." none] =
    .ok ("<s>[INST] Hey, how are you? [/INST]Good. How can I help you?</s>[INST] I'm just testing to make sure templating works. [/INST]") := by
  rfl

/-- C3: a chat template that raises during rendering (two consecutive user
messages under the alternating-role template) is claimed to surface as a
4xx/INVALID_ARGUMENT reply carrying the raised message. The code instead
panics: `ChatTemplate::render` unwraps the render result, so the handler
reaches the `panicked` outcome and never produces the 400 reply. -/
theorem chat_completions_template_raise_panics :
    mistralRenderResult "<s>" "</s>"
      [Message.mk "user" "a" none, Message.mk "user" "b" none] =
      .error "Conversation roles must alternate user/assistant/user/assistant/..."
    ∧ (mistralTemplate.render [Message.mk "user" "a" none, Message.mk "user" "b" none]
        = none)
    ∧ chat_completions fixtureState
        { model := mistralModelId
          messages := [Message.mk "user" "a" none, Message.mk "user" "b" none] } =
      ChatHandlerOutcome.panicked := by
  refine ⟨rfl, rfl, rfl⟩

/-- Counterexample to C9 as stated: on a model map parsed from the legacy
(V1) schema, `chat_templates()` does not return a chat-template sub-mapping
at all — the source executes `unimplemented!()`, i.e. panics (modelled as
`none`). -/
theorem chat_templates_v1_counterexample :
    ModelMap.chat_templates (ModelMap.V1 (ModelMapV1.mk [])) = none := rfl

/-- C9 (amended): for every model map of the current (V2) schema the
`chat_templates()` accessor is total and returns the chat-template
sub-mapping (possibly empty); for every legacy (V1) map it panics
(`unimplemented!()`), modelled as `none`. -/
theorem chat_templates_spec :
    (∀ v : ModelMapV2,
      ModelMap.chat_templates (ModelMap.V2 v) = some v.chat_templates)
    ∧ (∀ v : ModelMapV1, ModelMap.chat_templates (ModelMap.V1 v) = none) :=
  ⟨fun _ => rfl, fun _ => rfl⟩

/-- C6: for both OpenAI endpoints the mapped decoding method is `Sample`
iff `(temperature ?? 1.0) ≥ SAMPLING_EPS` or a seed is present, else
`Greedy`; in particular `{temperature: 0.0, seed: null}` maps to Greedy,
`{temperature: 0.0, seed: 42}` to Sample and `{temperature: 0.7}` to
Sample, on chat and on completions alike. -/
theorem decoding_method_spec :
    (∀ req : ChatCompletionRequest,
      (chatParameters req).method = DecodingMethod.Sample ↔
        (req.temperature.getD 1 ≥ SAMPLING_EPS ∨ req.seed.isSome = true))
    ∧ (∀ req : CompletionRequest,
      (completionParameters req).method = DecodingMethod.Sample ↔
        (req.temperature.getD 1 ≥ SAMPLING_EPS ∨ req.seed.isSome = true))
    ∧ (chatParameters { model := "m", messages := [], temperature := some 0 }).method
        = DecodingMethod.Greedy
    ∧ (chatParameters
        { model := "m", messages := [], temperature := some 0, seed := some 42 }).method
        = DecodingMethod.Sample
    ∧ (chatParameters
        { model := "m", messages := [], temperature := some (7/10) }).method
        = DecodingMethod.Sample
    ∧ (completionParameters { model := "m", prompt := "p", temperature := some 0 }).method
        = DecodingMethod.Greedy
    ∧ (completionParameters
        { model := "m", prompt := "p", temperature := some 0, seed := some 42 }).method
        = DecodingMethod.Sample
    ∧ (completionParameters
        { model := "m", prompt := "p", temperature := some (7/10) }).method
        = DecodingMethod.Sample := by
  refine ⟨fun req => ?_, fun req => ?_,
    by norm_num [chatParameters, SAMPLING_EPS],
    by norm_num [chatParameters, SAMPLING_EPS],
    by norm_num [chatParameters, SAMPLING_EPS],
    by norm_num [completionParameters, SAMPLING_EPS],
    by norm_num [completionParameters, SAMPLING_EPS],
    by norm_num [completionParameters, SAMPLING_EPS]⟩
  · by_cases h : req.temperature.getD 1 ≥ SAMPLING_EPS ∨ req.seed.isSome = true <;>
      simp [chatParameters, h]
  · by_cases h : req.temperature.getD 1 ≥ SAMPLING_EPS ∨ req.seed.isSome = true <;>
      simp [completionParameters, h]

/-- The response behind a known-successful upstream call (junk default on
the error branch, never used under an `isOk` hypothesis). -/
def okResponse {α : Type} (e : Except Status (ModelInfoResponse α)) :
    ModelInfoResponse α :=
  match e with
  | .ok r => r
  | .error _ => ModelInfoResponse.mk []

theorem infoCollect_all_ok {α : Type} (clients : String → Bool)
    (upstream : String → Except Status (ModelInfoResponse α))
    (ids : List String)
    (h : ∀ id ∈ ids, clients id = true ∧ (upstream id).isOk = true) :
    infoCollect clients upstream ids =
      .ok (ids.map fun i => okResponse (upstream i)) := by
  induction ids with
  | nil => rfl
  | cons m rest ih =>
    obtain ⟨hm, hrest⟩ := List.forall_mem_cons.mp h
    rw [infoCollect, if_pos hm.1]
    cases hu : upstream m with
    | error e => rw [hu] at hm; simp [Except.isOk, Except.toBool] at hm
    | ok r => simp [ih hrest, okResponse, hu, Except.map]

theorem infoCollect_first_error {α : Type} (clients : String → Bool)
    (upstream : String → Except Status (ModelInfoResponse α))
    (pre : List String) (bad : String) (post : List String) (e : Status)
    (hpre : ∀ id ∈ pre, clients id = true ∧ (upstream id).isOk = true)
    (hbad : clients bad = true) (herr : upstream bad = .error e) :
    infoCollect clients upstream (pre ++ bad :: post) = .error e := by
  induction pre with
  | nil => simp [infoCollect, hbad, herr]
  | cons m rest ih =>
    obtain ⟨hm, hrest⟩ := List.forall_mem_cons.mp hpre
    rw [List.cons_append, infoCollect, if_pos hm.1]
    cases hu : upstream m with
    | error s => rw [hu] at hm; simp [Except.isOk, Except.toBool] at hm
    | ok r => simp [ih hrest, Except.map]

/-- C7: `get_models_info` with non-empty `model_ids` dispatches one
single-id sub-request per id in input order; on all-success the aggregated
`models` array is the concatenation of the per-model upstream arrays in
that order (so its length is the sum of the per-model lengths); a failing
sub-call makes the whole call return that error; and empty `model_ids`
short-circuits to the empty response for every registry and upstream, i.e.
without any upstream call. -/
theorem get_models_info_spec :
    (∀ (α : Type) (clients : String → Bool)
      (upstream : String → Except Status (ModelInfoResponse α))
      (md : List (String × String)),
      get_models_info clients upstream
        (GrpcRequest.mk md (ModelInfoRequest.mk [])) =
        .ok (ModelInfoResponse.mk []))
    ∧ (∀ (α : Type) (clients : String → Bool)
      (upstream : String → Except Status (ModelInfoResponse α))
      (md : List (String × String)) (ids : List String),
      ids ≠ [] →
      (∀ id ∈ ids, clients id = true ∧ (upstream id).isOk = true) →
      get_models_info clients upstream (GrpcRequest.mk md (ModelInfoRequest.mk ids)) =
        .ok (ModelInfoResponse.mk
          ((ids.map fun i => (okResponse (upstream i)).models).flatten))
      ∧ ((ids.map fun i => (okResponse (upstream i)).models).flatten).length =
          (ids.map fun i => (okResponse (upstream i)).models.length).sum)
    ∧ (∀ (α : Type) (clients : String → Bool)
      (upstream : String → Except Status (ModelInfoResponse α))
      (md : List (String × String)) (pre : List String) (bad : String)
      (post : List String) (e : Status),
      (∀ id ∈ pre, clients id = true ∧ (upstream id).isOk = true) →
      clients bad = true → upstream bad = .error e →
      get_models_info clients upstream
        (GrpcRequest.mk md (ModelInfoRequest.mk (pre ++ bad :: post))) =
        .error e) := by
  refine ⟨fun α clients upstream md => rfl, ?_, ?_⟩
  · intro α clients upstream md ids hne hall
    constructor
    · rw [get_models_info, if_neg (by simpa using hne)]
      rw [infoCollect_all_ok clients upstream ids hall]
      simp [List.map_map]
      rfl
    · simp [List.length_flatten, List.map_map]
      rfl
  · intro α clients upstream md pre bad post e hpre hbad herr
    rw [get_models_info, if_neg (by simp)]
    rw [infoCollect_first_error clients upstream pre bad post e hpre hbad herr]

/-- Registry of scenario 5: the two models `a` and `b` are known. -/
def infoClientsW : String → Bool := fun s => s == "a" || s == "b"

/-- Upstream of scenario 5: model `a` answers `[A1, A2]`, model `b`
answers `[B1]`. -/
def infoUpstreamW : String → Except Status (ModelInfoResponse String) :=
  fun s =>
    if s = "a" then .ok (ModelInfoResponse.mk ["A1", "A2"])
    else if s = "b" then .ok (ModelInfoResponse.mk ["B1"])
    else .error (unrecognizedModelId s)

/-- Witness for the C7 theorem: the fan-out scenario with
`model_ids = [a, b]` concatenates to `[A1, A2, B1]`, instantiating every
hypothesis concretely. -/
theorem get_models_info_spec_witness :
    get_models_info infoClientsW infoUpstreamW
      (GrpcRequest.mk [] (ModelInfoRequest.mk ["a", "b"])) =
      .ok (ModelInfoResponse.mk ["A1", "A2", "B1"])
    ∧ get_models_info infoClientsW infoUpstreamW
        (GrpcRequest.mk [] (ModelInfoRequest.mk ["a", "err"])) =
        .error (unrecognizedModelId "err") := by
  constructor
  · have h := (get_models_info_spec.2.1) String infoClientsW infoUpstreamW []
      ["a", "b"] (by simp) (by decide)
    rw [h.1]
    simp [infoUpstreamW, okResponse]
  · rfl

/-- Counterexample to C4 as stated: an info-service `get_models_info` call
whose metadata does not contain `mm-model-id` does not return
`INVALID_ARGUMENT "Missing required model ID"` — the model ids are taken
from the request body, so the call proceeds to the registry lookup and
returns `NOT_FOUND` for an unknown body id. -/
theorem info_metadata_counterexample :
    get_models_info infoClientsW infoUpstreamW
      (GrpcRequest.mk [] (ModelInfoRequest.mk ["zzz"])) =
      .error (unrecognizedModelId "zzz")
    ∧ unrecognizedModelId "zzz" ≠
        Status.mk .InvalidArgument "Missing required model ID" :=
  ⟨rfl, by decide⟩

/-- C4 (amended): every implemented NLP service method takes the model id
from request metadata under `mm-model-id` and returns `INVALID_ARGUMENT`
with message "Missing required model ID" when the key is absent; the info
service does not: `get_models_info` reads model ids from the request body
and never consults the metadata (its result is invariant under any change
of metadata), and `get_runtime_info` answers `UNIMPLEMENTED` without
reading the request. -/
theorem model_id_extraction_spec :
    (∀ (clients : String → Bool) upstream
      (request : GrpcRequest EmbeddingTasksRequest),
      request.metadata.lookup METADATA_NAME_MODEL_ID = none →
      embedding_tasks_predict clients upstream request =
        .error (Status.mk .InvalidArgument "Missing required model ID"))
    ∧ (∀ (clients : String → Bool) upstream
      (request : GrpcRequest EmbeddingTaskRequest),
      request.metadata.lookup METADATA_NAME_MODEL_ID = none →
      embedding_task_predict clients upstream request =
        .error (Status.mk .InvalidArgument "Missing required model ID"))
    ∧ (∀ (clients : String → Bool) upstream
      (request : GrpcRequest RerankTasksRequest),
      request.metadata.lookup METADATA_NAME_MODEL_ID = none →
      rerank_tasks_predict clients upstream request =
        .error (Status.mk .InvalidArgument "Missing required model ID"))
    ∧ (∀ (clients : String → Bool) upstream
      (request : GrpcRequest RerankTaskRequest),
      request.metadata.lookup METADATA_NAME_MODEL_ID = none →
      rerank_task_predict clients upstream request =
        .error (Status.mk .InvalidArgument "Missing required model ID"))
    ∧ (∀ (clients : String → Bool) upstream
      (request : GrpcRequest SentenceSimilarityTasksRequest),
      request.metadata.lookup METADATA_NAME_MODEL_ID = none →
      sentence_similarity_tasks_predict clients upstream request =
        .error (Status.mk .InvalidArgument "Missing required model ID"))
    ∧ (∀ (clients : String → Bool) upstream
      (request : GrpcRequest SentenceSimilarityTaskRequest),
      request.metadata.lookup METADATA_NAME_MODEL_ID = none →
      sentence_similarity_task_predict clients upstream request =
        .error (Status.mk .InvalidArgument "Missing required model ID"))
    ∧ (∀ (α : Type) (clients : String → Bool)
      (upstream : String → Except Status (ModelInfoResponse α))
      (md md' : List (String × String)) (body : ModelInfoRequest),
      get_models_info clients upstream (GrpcRequest.mk md body) =
        get_models_info clients upstream (GrpcRequest.mk md' body))
    ∧ (∀ (α : Type) (request : GrpcRequest α),
      get_runtime_info request = .error (Status.mk .Unimplemented "not implemented")) := by
  refine ⟨?_, ?_, ?_, ?_, ?_, ?_, fun α clients upstream md md' body => rfl,
    fun α request => rfl⟩
  all_goals
    intro clients upstream request h
  · simp [embedding_tasks_predict, extract_model_id, h, Bind.bind, Except.bind]
  · simp [embedding_task_predict, extract_model_id, h, Bind.bind, Except.bind]
  · simp [rerank_tasks_predict, extract_model_id, h, Bind.bind, Except.bind]
  · simp [rerank_task_predict, extract_model_id, h, Bind.bind, Except.bind]
  · simp [sentence_similarity_tasks_predict, extract_model_id, h, Bind.bind, Except.bind]
  · simp [sentence_similarity_task_predict, extract_model_id, h, Bind.bind, Except.bind]

/-- Witness for the C4 theorem: all six implemented NLP methods,
instantiated on a concrete metadata-free request, return the
`INVALID_ARGUMENT` status. -/
theorem model_id_extraction_spec_witness :
    embedding_tasks_predict (fun _ => true) (fun _ _ => .ok {})
      (GrpcRequest.mk [] (EmbeddingTasksRequest.mk ["x"])) =
      .error (Status.mk .InvalidArgument "Missing required model ID")
    ∧ embedding_task_predict (fun _ => true) (fun _ _ => .ok {})
      (GrpcRequest.mk [] (EmbeddingTaskRequest.mk "x")) =
      .error (Status.mk .InvalidArgument "Missing required model ID")
    ∧ rerank_tasks_predict (fun _ => true) (fun _ _ => .ok {})
      (GrpcRequest.mk [] (RerankTasksRequest.mk ["d"] ["q"])) =
      .error (Status.mk .InvalidArgument "Missing required model ID")
    ∧ rerank_task_predict (fun _ => true) (fun _ _ => .ok {})
      (GrpcRequest.mk [] (RerankTaskRequest.mk ["d"] "q")) =
      .error (Status.mk .InvalidArgument "Missing required model ID")
    ∧ sentence_similarity_tasks_predict (fun _ => true) (fun _ _ => .ok {})
      (GrpcRequest.mk [] (SentenceSimilarityTasksRequest.mk ["s"] ["t"])) =
      .error (Status.mk .InvalidArgument "Missing required model ID")
    ∧ sentence_similarity_task_predict (fun _ => true) (fun _ _ => .ok {})
      (GrpcRequest.mk [] (SentenceSimilarityTaskRequest.mk "s" ["t"])) =
      .error (Status.mk .InvalidArgument "Missing required model ID") :=
  ⟨model_id_extraction_spec.1 _ _ _ rfl,
   model_id_extraction_spec.2.1 _ _ _ rfl,
   model_id_extraction_spec.2.2.1 _ _ _ rfl,
   model_id_extraction_spec.2.2.2.1 _ _ _ rfl,
   model_id_extraction_spec.2.2.2.2.1 _ _ _ rfl,
   model_id_extraction_spec.2.2.2.2.2.1 _ _ _ rfl⟩

/-- C10: in every implemented NLP unary method the empty-input
short-circuit sits after the `mm-model-id` metadata check and before the
registry lookup: with the header present, an empty-input request (empty
`texts`/`text`/`documents`/`queries`/`sentences`/`source_sentences`)
returns the default response for every registry — in particular one where
the model id is unknown, so no `NOT_FOUND` is produced — while a request
without the header gets `INVALID_ARGUMENT` even on empty input. -/
theorem nlp_short_circuit_order_spec :
    (∀ (clients : String → Bool) upstream (md : List (String × String)) mid,
      md.lookup METADATA_NAME_MODEL_ID = some mid →
      clients mid = false →
      embedding_tasks_predict clients upstream
        (GrpcRequest.mk md (EmbeddingTasksRequest.mk [])) = .ok {})
    ∧ (∀ (clients : String → Bool) upstream (md : List (String × String)) mid
      (documents queries : List String),
      md.lookup METADATA_NAME_MODEL_ID = some mid →
      clients mid = false →
      documents.isEmpty ∨ queries.isEmpty →
      rerank_tasks_predict clients upstream
        (GrpcRequest.mk md (RerankTasksRequest.mk documents queries)) = .ok {})
    ∧ (∀ (clients : String → Bool) upstream (md : List (String × String)),
      md.lookup METADATA_NAME_MODEL_ID = none →
      embedding_tasks_predict clients upstream
        (GrpcRequest.mk md (EmbeddingTasksRequest.mk [])) =
        .error (Status.mk .InvalidArgument "Missing required model ID"))
    ∧ (∀ (clients : String → Bool) upstream (md : List (String × String))
      (queries : List String),
      md.lookup METADATA_NAME_MODEL_ID = none →
      rerank_tasks_predict clients upstream
        (GrpcRequest.mk md (RerankTasksRequest.mk [] queries)) =
        .error (Status.mk .InvalidArgument "Missing required model ID"))
    ∧ (∀ (clients : String → Bool) upstream (md : List (String × String)) mid,
      md.lookup METADATA_NAME_MODEL_ID = some mid →
      clients mid = false →
      embedding_task_predict clients upstream
        (GrpcRequest.mk md (EmbeddingTaskRequest.mk "")) = .ok {})
    ∧ (∀ (clients : String → Bool) upstream (md : List (String × String)) mid
      (documents : List String) (query : String),
      md.lookup METADATA_NAME_MODEL_ID = some mid →
      clients mid = false →
      documents.isEmpty ∨ query.isEmpty →
      rerank_task_predict clients upstream
        (GrpcRequest.mk md (RerankTaskRequest.mk documents query)) = .ok {})
    ∧ (∀ (clients : String → Bool) upstream (md : List (String × String)) mid
      (source_sentences sentences : List String),
      md.lookup METADATA_NAME_MODEL_ID = some mid →
      clients mid = false →
      source_sentences.isEmpty ∨ sentences.isEmpty →
      sentence_similarity_tasks_predict clients upstream
        (GrpcRequest.mk md
          (SentenceSimilarityTasksRequest.mk source_sentences sentences)) = .ok {})
    ∧ (∀ (clients : String → Bool) upstream (md : List (String × String)) mid
      (source_sentence : String) (sentences : List String),
      md.lookup METADATA_NAME_MODEL_ID = some mid →
      clients mid = false →
      source_sentence.isEmpty ∨ sentences.isEmpty →
      sentence_similarity_task_predict clients upstream
        (GrpcRequest.mk md
          (SentenceSimilarityTaskRequest.mk source_sentence sentences)) = .ok {})
    ∧ (∀ (clients : String → Bool) upstream (md : List (String × String)),
      md.lookup METADATA_NAME_MODEL_ID = none →
      embedding_task_predict clients upstream
        (GrpcRequest.mk md (EmbeddingTaskRequest.mk "")) =
        .error (Status.mk .InvalidArgument "Missing required model ID"))
    ∧ (∀ (clients : String → Bool) upstream (md : List (String × String))
      (query : String),
      md.lookup METADATA_NAME_MODEL_ID = none →
      rerank_task_predict clients upstream
        (GrpcRequest.mk md (RerankTaskRequest.mk [] query)) =
        .error (Status.mk .InvalidArgument "Missing required model ID"))
    ∧ (∀ (clients : String → Bool) upstream (md : List (String × String))
      (sentences : List String),
      md.lookup METADATA_NAME_MODEL_ID = none →
      sentence_similarity_tasks_predict clients upstream
        (GrpcRequest.mk md (SentenceSimilarityTasksRequest.mk [] sentences)) =
        .error (Status.mk .InvalidArgument "Missing required model ID"))
    ∧ (∀ (clients : String → Bool) upstream (md : List (String × String))
      (sentences : List String),
      md.lookup METADATA_NAME_MODEL_ID = none →
      sentence_similarity_task_predict clients upstream
        (GrpcRequest.mk md (SentenceSimilarityTaskRequest.mk "" sentences)) =
        .error (Status.mk .InvalidArgument "Missing required model ID")) := by
  refine ⟨?_, ?_, ?_, ?_, ?_, ?_, ?_, ?_, ?_, ?_, ?_, ?_⟩
  · intro clients upstream md mid h hc
    simp [embedding_tasks_predict, extract_model_id, h, Bind.bind, Except.bind]
    rfl
  · intro clients upstream md mid documents queries h hc hempty
    have hor : documents = [] ∨ queries = [] := by
      rcases hempty with he | he
      · exact Or.inl (List.isEmpty_iff.mp he)
      · exact Or.inr (List.isEmpty_iff.mp he)
    simp [rerank_tasks_predict, extract_model_id, h, Bind.bind, Except.bind, hor]
    try rfl
  · intro clients upstream md h
    simp [embedding_tasks_predict, extract_model_id, h, Bind.bind, Except.bind]
  · intro clients upstream md queries h
    simp [rerank_tasks_predict, extract_model_id, h, Bind.bind, Except.bind]
  · intro clients upstream md mid h hc
    simp [embedding_task_predict, extract_model_id, h, Bind.bind, Except.bind]
    rfl
  · intro clients upstream md mid documents query h hc hempty
    rcases hempty with he | he
    · obtain rfl : documents = [] := List.isEmpty_iff.mp he
      simp [rerank_task_predict, extract_model_id, h, Bind.bind, Except.bind]
      try rfl
    · obtain rfl : query = "" := (String.isEmpty_iff query).mp he
      simp [rerank_task_predict, extract_model_id, h, Bind.bind, Except.bind,
        show ("" : String).isEmpty = true from rfl]
      try rfl
  · intro clients upstream md mid source_sentences sentences h hc hempty
    have hor : source_sentences = [] ∨ sentences = [] := by
      rcases hempty with he | he
      · exact Or.inl (List.isEmpty_iff.mp he)
      · exact Or.inr (List.isEmpty_iff.mp he)
    simp [sentence_similarity_tasks_predict, extract_model_id, h, Bind.bind,
      Except.bind, hor]
    try rfl
  · intro clients upstream md mid source_sentence sentences h hc hempty
    rcases hempty with he | he
    · obtain rfl : source_sentence = "" := (String.isEmpty_iff source_sentence).mp he
      simp [sentence_similarity_task_predict, extract_model_id, h, Bind.bind,
        Except.bind, show ("" : String).isEmpty = true from rfl]
      try rfl
    · obtain rfl : sentences = [] := List.isEmpty_iff.mp he
      simp [sentence_similarity_task_predict, extract_model_id, h, Bind.bind,
        Except.bind]
      try rfl
  · intro clients upstream md h
    simp [embedding_task_predict, extract_model_id, h, Bind.bind, Except.bind]
  · intro clients upstream md query h
    simp [rerank_task_predict, extract_model_id, h, Bind.bind, Except.bind]
  · intro clients upstream md sentences h
    simp [sentence_similarity_tasks_predict, extract_model_id, h, Bind.bind,
      Except.bind]
  · intro clients upstream md sentences h
    simp [sentence_similarity_task_predict, extract_model_id, h, Bind.bind,
      Except.bind]

/-- Witness for the C10 theorem: for each of the six implemented NLP
methods, with the header present, empty input and a registry that knows no
model, the default response is returned; without the header each returns
`INVALID_ARGUMENT`. -/
theorem nlp_short_circuit_order_spec_witness :
    embedding_tasks_predict (fun _ => false) (fun _ _ => .ok {})
      (GrpcRequest.mk [("mm-model-id", "m")] (EmbeddingTasksRequest.mk [])) = .ok {}
    ∧ rerank_tasks_predict (fun _ => false) (fun _ _ => .ok {})
      (GrpcRequest.mk [("mm-model-id", "m")] (RerankTasksRequest.mk [] ["q"])) = .ok {}
    ∧ embedding_tasks_predict (fun _ => false) (fun _ _ => .ok {})
      (GrpcRequest.mk [] (EmbeddingTasksRequest.mk [])) =
      .error (Status.mk .InvalidArgument "Missing required model ID")
    ∧ rerank_tasks_predict (fun _ => false) (fun _ _ => .ok {})
      (GrpcRequest.mk [] (RerankTasksRequest.mk [] ["q"])) =
      .error (Status.mk .InvalidArgument "Missing required model ID")
    ∧ embedding_task_predict (fun _ => false) (fun _ _ => .ok {})
      (GrpcRequest.mk [("mm-model-id", "m")] (EmbeddingTaskRequest.mk "")) = .ok {}
    ∧ rerank_task_predict (fun _ => false) (fun _ _ => .ok {})
      (GrpcRequest.mk [("mm-model-id", "m")] (RerankTaskRequest.mk [] "q")) = .ok {}
    ∧ sentence_similarity_tasks_predict (fun _ => false) (fun _ _ => .ok {})
      (GrpcRequest.mk [("mm-model-id", "m")]
        (SentenceSimilarityTasksRequest.mk [] ["s"])) = .ok {}
    ∧ sentence_similarity_task_predict (fun _ => false) (fun _ _ => .ok {})
      (GrpcRequest.mk [("mm-model-id", "m")]
        (SentenceSimilarityTaskRequest.mk "" ["s"])) = .ok {}
    ∧ embedding_task_predict (fun _ => false) (fun _ _ => .ok {})
      (GrpcRequest.mk [] (EmbeddingTaskRequest.mk "")) =
      .error (Status.mk .InvalidArgument "Missing required model ID")
    ∧ rerank_task_predict (fun _ => false) (fun _ _ => .ok {})
      (GrpcRequest.mk [] (RerankTaskRequest.mk [] "q")) =
      .error (Status.mk .InvalidArgument "Missing required model ID")
    ∧ sentence_similarity_tasks_predict (fun _ => false) (fun _ _ => .ok {})
      (GrpcRequest.mk [] (SentenceSimilarityTasksRequest.mk [] ["s"])) =
      .error (Status.mk .InvalidArgument "Missing required model ID")
    ∧ sentence_similarity_task_predict (fun _ => false) (fun _ _ => .ok {})
      (GrpcRequest.mk [] (SentenceSimilarityTaskRequest.mk "" ["s"])) =
      .error (Status.mk .InvalidArgument "Missing required model ID") :=
  ⟨nlp_short_circuit_order_spec.1 _ _ _ "m" rfl rfl,
   nlp_short_circuit_order_spec.2.1 _ _ _ "m" [] ["q"] rfl rfl (Or.inl rfl),
   nlp_short_circuit_order_spec.2.2.1 _ _ _ rfl,
   nlp_short_circuit_order_spec.2.2.2.1 _ _ _ ["q"] rfl,
   nlp_short_circuit_order_spec.2.2.2.2.1 _ _ _ "m" rfl rfl,
   nlp_short_circuit_order_spec.2.2.2.2.2.1 _ _ _ "m" [] "q" rfl rfl (Or.inl rfl),
   nlp_short_circuit_order_spec.2.2.2.2.2.2.1 _ _ _ "m" [] ["s"] rfl rfl
     (Or.inl rfl),
   nlp_short_circuit_order_spec.2.2.2.2.2.2.2.1 _ _ _ "m" "" ["s"] rfl rfl
     (Or.inl rfl),
   nlp_short_circuit_order_spec.2.2.2.2.2.2.2.2.1 _ _ _ rfl,
   nlp_short_circuit_order_spec.2.2.2.2.2.2.2.2.2.1 _ _ _ "q" rfl,
   nlp_short_circuit_order_spec.2.2.2.2.2.2.2.2.2.2.1 _ _ _ ["s"] rfl,
   nlp_short_circuit_order_spec.2.2.2.2.2.2.2.2.2.2.2 _ _ _ ["s"] rfl⟩

theorem takeOk_map_ok (rest : List GenerationStreamResponse) :
    takeOk (rest.map .ok) = rest := by
  induction rest with
  | nil => rfl
  | cons r rs ih => simp [takeOk, ih]

theorem getLast?_cons_append_singleton {α : Type} (a d : α) (xs : List α) :
    (a :: (xs ++ [d])).getLast? = some d := by
  induction xs generalizing a with
  | nil => rfl
  | cons x xs ih =>
    rw [List.cons_append, List.getLast?_cons_cons]
    exact ih x

/-- C2: for every chat completions stream that runs to completion (an `Ok`
first upstream message followed by `Ok` body messages), the first emitted
event is the role-only chunk — one choice at index 0 with
`delta = {role: assistant}`, no content, no finish_reason, no logprobs and
`usage = null` — the first upstream message yields no content chunk (it is
consumed only for `input_token_count`, which seeds the chunks' prompt
token count), and the final event is the `[DONE]` data event. -/
theorem chat_stream_shape_spec (request_id : String) (created_time : ℤ)
    (req : ChatCompletionRequest) (first : GenerationStreamResponse)
    (rest : List GenerationStreamResponse) :
    chat_generate_stream request_id created_time req
        (.ok first :: rest.map .ok) =
      (SseEvent.json (roleChunk request_id req.model created_time) ::
        rest.map (fun r => SseEvent.json (mkChatChunk request_id req.model
          created_time (req.top_logprobs.getD 0)
          (if first.input_token_count > 0 then first.input_token_count else 0) r)) ++
        [SseEvent.data "[DONE]"],
       false)
    ∧ roleChunk request_id req.model created_time =
        ChatCompletionChunk.mk request_id
          [ChatCompletionChunkChoice.mk
            (ChatCompletionMessage.mk (some "assistant") none) 0 none none]
          created_time req.model "chat.completion.chunk" none
    ∧ (chat_generate_stream request_id created_time req
        (.ok first :: rest.map .ok)).1.getLast? = some (SseEvent.data "[DONE]")
    ∧ (chat_generate_stream request_id created_time req
        (.ok first :: rest.map .ok)).1.length = rest.length + 2 := by
  have he : chat_generate_stream request_id created_time req
      (.ok first :: rest.map .ok) =
    (SseEvent.json (roleChunk request_id req.model created_time) ::
      rest.map (fun r => SseEvent.json (mkChatChunk request_id req.model
        created_time (req.top_logprobs.getD 0)
        (if first.input_token_count > 0 then first.input_token_count else 0) r)) ++
      [SseEvent.data "[DONE]"],
     false) := by
    simp [chat_generate_stream, takeOk_map_ok]
  refine ⟨he, rfl, ?_, ?_⟩
  · rw [he]
    exact getLast?_cons_append_singleton _ _ _
  · rw [he]
    simp

/-- Concrete first upstream message used by the streaming
counterexamples. -/
def respW : GenerationStreamResponse :=
  GenerationStreamResponse.mk 3 0 "hello" .NotFinished [] []

/-- Concrete upstream error status used by the streaming
counterexamples. -/
def errW : Status := Status.mk .Unimplemented "upstream failure"

/-- Counterexample to C1 as stated: a chat stream whose upstream yields an
error after its first message (i.e. after the first bytes — the role chunk
— have been sent) is not aborted without the sentinel: the adapter leaves
the `while let Some(Ok(..))` loop and still emits the `[DONE]` data event,
finishing normally. -/
theorem done_after_upstream_error_counterexample :
    (chat_generate_stream "id" 0 { model := "m", messages := [] }
        [.ok respW, .error errW]).1.getLast? = some (SseEvent.data "[DONE]")
    ∧ (chat_generate_stream "id" 0 { model := "m", messages := [] }
        [.ok respW, .error errW]).2 = false := by
  exact ⟨rfl, rfl⟩

/-- C1 (amended): once the first upstream message (and, with echo, the
second) has arrived successfully, both streaming adapters always emit the
`[DONE]` sentinel — an upstream error later on merely ends the content
loop, it does not suppress the sentinel. The stream is aborted without
`[DONE]` (by a panic) exactly when the stream ends or errors at the
messages consumed before the loop: the first for chat, the first or — with
echo — second for completions. -/
theorem stream_done_sentinel_spec :
    (∀ (rid : String) (ct : ℤ) (req : ChatCompletionRequest) first rest,
      (chat_generate_stream rid ct req (.ok first :: rest)).1.getLast? =
        some (SseEvent.data "[DONE]")
      ∧ (chat_generate_stream rid ct req (.ok first :: rest)).2 = false)
    ∧ (∀ (rid : String) (ct : ℤ) (req : ChatCompletionRequest) s rest,
      chat_generate_stream rid ct req (.error s :: rest) =
        ([SseEvent.json (roleChunk rid req.model ct)], true))
    ∧ (∀ (rid : String) (ct : ℤ) (req : ChatCompletionRequest),
      chat_generate_stream rid ct req [] =
        ([SseEvent.json (roleChunk rid req.model ct)], true))
    ∧ (∀ (rid : String) (ct : ℤ) (req : CompletionRequest) first rest,
      req.echo.getD false = false →
      (generate_stream rid ct req (.ok first :: rest)).1.getLast? =
        some (SseEvent.data "[DONE]")
      ∧ (generate_stream rid ct req (.ok first :: rest)).2 = false)
    ∧ (∀ (rid : String) (ct : ℤ) (req : CompletionRequest) first second rest,
      req.echo = some true →
      (generate_stream rid ct req (.ok first :: .ok second :: rest)).1.getLast? =
        some (SseEvent.data "[DONE]")
      ∧ (generate_stream rid ct req (.ok first :: .ok second :: rest)).2 = false)
    ∧ (∀ (rid : String) (ct : ℤ) (req : CompletionRequest) s rest,
      generate_stream rid ct req (.error s :: rest) = ([], true)) := by
  refine ⟨?_, fun rid ct req s rest => rfl, fun rid ct req => rfl, ?_, ?_,
    fun rid ct req s rest => rfl⟩
  · intro rid ct req first rest
    constructor
    · exact getLast?_cons_append_singleton _ _ _
    · simp [chat_generate_stream]
  · intro rid ct req first rest h
    constructor
    · simp [generate_stream, h]
    · simp [generate_stream, h]
  · intro rid ct req first second rest h
    constructor
    · simp [generate_stream, h]
    · simp [generate_stream, h]

/-- Witness for the C1 theorem: concrete instantiations discharging the
echo hypotheses — a no-echo completions stream and an echoed completions
stream, both ending in an upstream error, still end with `[DONE]`. -/
theorem stream_done_sentinel_spec_witness :
    (generate_stream "id" 0 { model := "m", prompt := "p" }
        [.ok respW, .error errW]).1.getLast? = some (SseEvent.data "[DONE]")
    ∧ (generate_stream "id" 0 { model := "m", prompt := "p", echo := some true }
        [.ok respW, .ok respW, .error errW]).1.getLast? =
        some (SseEvent.data "[DONE]") :=
  ⟨(stream_done_sentinel_spec.2.2.2.1 "id" 0 { model := "m", prompt := "p" }
      respW [.error errW] rfl).1,
   (stream_done_sentinel_spec.2.2.2.2.1 "id" 0
      { model := "m", prompt := "p", echo := some true }
      respW respW [.error errW] rfl).1⟩

/-- Scenario 4 input tokens. -/
def tok0 : TokenInfo := TokenInfo.mk "t0" (-1) []

/-- Scenario 4 input tokens. -/
def tok1 : TokenInfo := TokenInfo.mk "t1" (-2) []

/-- Scenario 4 input tokens. -/
def tok2 : TokenInfo := TokenInfo.mk "t2" (-3) []

/-- Scenario 4, upstream message 1: `input_token_count = 3`,
`text = "PREFIX"`. -/
def msg1W : GenerationStreamResponse :=
  GenerationStreamResponse.mk 3 0 "PREFIX" .NotFinished [] []

/-- Scenario 4, upstream message 2: carries the input tokens. -/
def msg2W : GenerationStreamResponse :=
  GenerationStreamResponse.mk 0 0 "" .NotFinished [tok0, tok1, tok2] []

/-- Scenario 4, upstream message 3: `text = "A"`, not finished. -/
def msg3W : GenerationStreamResponse :=
  GenerationStreamResponse.mk 0 0 "A" .NotFinished [] []

/-- Scenario 4, upstream message 4: `text = "B"`,
`generated_token_count = 2`, `stop_reason = EosToken`. -/
def msg4W : GenerationStreamResponse :=
  GenerationStreamResponse.mk 0 2 "B" .EosToken [] []

/-- Scenario 4 request: a streaming completions request with
`echo = true`. -/
def echoReqW : CompletionRequest :=
  { model := "mdl", prompt := "p", stream := some true, echo := some true }

/-- C8: in a streaming completions request with `echo = true`, the first
upstream message's text and the second's `input_tokens` are buffered and
consumed exactly once, by the first emitted chunk — whose choice text is
`buffered_text ++ response.text` and whose logprob token list is
`input_tokens ++ response.tokens` — while every later chunk carries only
its own text and tokens; usage is populated exactly on chunks whose
mapped finish reason is present (the terminal chunk of a well-formed
stream); the stream ends with the `[DONE]` event; and on the four-message
scenario of the spec exactly two JSON chunks are emitted, with texts
`PREFIXA` then `B`, the second carrying
`usage = {completion_tokens: 2, prompt_tokens: 3, total_tokens: 5}` and
`finish_reason = "stop"`. -/
theorem completions_echo_stream_spec :
    (∀ (rid : String) (ct : ℤ) (req : CompletionRequest) m1 m2 r rest,
      req.echo = some true →
      generate_stream rid ct req (.ok m1 :: .ok m2 :: .ok r :: rest.map .ok) =
        ((mkCompletionChunk rid req.model ct (req.logprobs.getD 0)
            (if m1.input_token_count > 0 then m1.input_token_count else 0)
            (some m1.text) (some m2.input_tokens) r ::
          completionChunks rid req.model ct (req.logprobs.getD 0)
            (if m1.input_token_count > 0 then m1.input_token_count else 0)
            none none rest).map SseEvent.json ++ [SseEvent.data "[DONE]"],
         false))
    ∧ (∀ (rid mid : String) (ct : ℤ) (n pt : ℕ) (t : String)
      (ts : List TokenInfo) (r : GenerationStreamResponse),
      (mkCompletionChunk rid mid ct n pt (some t) (some ts) r).choices =
        [CompletionChoice.mk 0 (some (t ++ r.text))
          (completions_create_logprobs (ts ++ r.tokens) n)
          (finishReasonOf r.stop_reason)])
    ∧ (∀ (rid mid : String) (ct : ℤ) (n pt : ℕ) (r : GenerationStreamResponse),
      (mkCompletionChunk rid mid ct n pt none none r).choices =
        [CompletionChoice.mk 0 (some r.text)
          (completions_create_logprobs r.tokens n)
          (finishReasonOf r.stop_reason)])
    ∧ (∀ (rid mid : String) (ct : ℤ) (n pt : ℕ) (it : Option String)
      (itk : Option (List TokenInfo)) (r : GenerationStreamResponse),
      (mkCompletionChunk rid mid ct n pt it itk r).usage =
        if (finishReasonOf r.stop_reason).isSome then
          some (Usage.mk r.generated_token_count pt (pt + r.generated_token_count))
        else none)
    ∧ generate_stream "cid" 0 echoReqW [.ok msg1W, .ok msg2W, .ok msg3W, .ok msg4W] =
        ([SseEvent.json (CompletionResponse.mk "cid" "text_completion" 0 "mdl" none
            [CompletionChoice.mk 0 (some "PREFIXA")
              (some (CompletionLogprobs.mk [] [-1, -2, -3] ["t0", "t1", "t2"] none))
              none]
            none),
          SseEvent.json (CompletionResponse.mk "cid" "text_completion" 0 "mdl" none
            [CompletionChoice.mk 0 (some "B") none (some "stop")]
            (some (Usage.mk 2 3 5))),
          SseEvent.data "[DONE]"],
         false) := by
  refine ⟨?_, fun rid mid ct n pt t ts r => rfl, fun rid mid ct n pt r => rfl,
    fun rid mid ct n pt it itk r => rfl, ?_⟩
  · intro rid ct req m1 m2 r rest h
    simp [generate_stream, h, takeOk, takeOk_map_ok, completionChunks]
  · rfl

/-- Witness for the C8 theorem: its general part applied to the concrete
four-message scenario, discharging the `echo = true` hypothesis. -/
theorem completions_echo_stream_spec_witness :
    generate_stream "cid" 0 echoReqW [.ok msg1W, .ok msg2W, .ok msg3W, .ok msg4W] =
      ((mkCompletionChunk "cid" echoReqW.model 0 (echoReqW.logprobs.getD 0)
          (if msg1W.input_token_count > 0 then msg1W.input_token_count else 0)
          (some msg1W.text) (some msg2W.input_tokens) msg3W ::
        completionChunks "cid" echoReqW.model 0 (echoReqW.logprobs.getD 0)
          (if msg1W.input_token_count > 0 then msg1W.input_token_count else 0)
          none none [msg4W]).map SseEvent.json ++ [SseEvent.data "[DONE]"],
       false) :=
  completions_echo_stream_spec.1 "cid" 0 echoReqW msg1W msg2W msg3W [msg4W] rfl

theorem insertKV_keys (acc : List (String × ℚ)) (k : String) (v : ℚ) :
    (insertKV acc k v).map Prod.fst =
      if k ∈ acc.map Prod.fst then acc.map Prod.fst
      else acc.map Prod.fst ++ [k] := by
  induction acc with
  | nil => simp [insertKV]
  | cons p rest ih =>
    obtain ⟨k₀, v₀⟩ := p
    by_cases hk : k₀ = k
    · subst hk
      simp [insertKV]
    · have hk' : ¬ k = k₀ := fun h => hk h.symm
      by_cases hm : k ∈ rest.map Prod.fst
      · simp [insertKV, hk, ih, hm, hk']
      · simp [insertKV, hk, ih, hm, hk']

theorem insertKV_length_le (acc : List (String × ℚ)) (k : String) (v : ℚ) :
    (insertKV acc k v).length ≤ acc.length + 1 := by
  induction acc with
  | nil => simp [insertKV]
  | cons p rest ih =>
    obtain ⟨k₀, v₀⟩ := p
    by_cases hk : k₀ = k
    · simp [insertKV, hk]
    · simp only [insertKV, hk, if_false, List.length_cons]
      omega

theorem insertKV_keys_nodup (acc : List (String × ℚ)) (k : String) (v : ℚ)
    (h : (acc.map Prod.fst).Nodup) :
    ((insertKV acc k v).map Prod.fst).Nodup := by
  rw [insertKV_keys]
  by_cases hm : k ∈ acc.map Prod.fst
  · simpa [hm] using h
  · rw [if_neg hm]
    exact h.append (List.nodup_singleton k)
      ((List.disjoint_singleton).mpr hm)

theorem collect_foldl_keys_nodup (l acc : List (String × ℚ))
    (h : (acc.map Prod.fst).Nodup) :
    ((l.foldl (fun acc p => insertKV acc p.1 p.2) acc).map Prod.fst).Nodup := by
  induction l generalizing acc with
  | nil => simpa using h
  | cons p rest ih => exact ih _ (insertKV_keys_nodup acc p.1 p.2 h)

theorem collect_foldl_length_le (l acc : List (String × ℚ)) :
    (l.foldl (fun acc p => insertKV acc p.1 p.2) acc).length ≤
      acc.length + l.length := by
  induction l generalizing acc with
  | nil => simp
  | cons p rest ih =>
    refine le_trans (ih (insertKV acc p.1 p.2)) ?_
    have := insertKV_length_le acc p.1 p.2
    simp only [List.length_cons]
    omega

theorem collectMap_keys_nodup (l : List (String × ℚ)) :
    ((collectMap l).map Prod.fst).Nodup :=
  collect_foldl_keys_nodup l [] (by simp)

theorem collectMap_length_le (l : List (String × ℚ)) :
    (collectMap l).length ≤ l.length := by
  simpa using collect_foldl_length_le l []

theorem chatTopLogprobs_props (t : TokenInfo) (n : ℕ)
    (tl : List ChatCompletionTopLogprob)
    (h : chatTopLogprobs t n = some tl) :
    List.Pairwise topLogprobLe tl
    ∧ (tl.map (fun x => x.token)).Nodup
    ∧ tl.length ≤ 1 + t.top_tokens.length := by
  by_cases hn : n > 0
  · rw [chatTopLogprobs, if_pos hn] at h
    obtain rfl : tl = _ := (Option.some.inj h).symm
    set pairs := collectMap
      (t.top_tokens.map (fun tt => (tt.text, tt.logprob)) ++
        [(t.text, t.logprob)]) with hpairs
    set toks := pairs.map fun p => ChatCompletionTopLogprob.mk p.1 p.2 with htoks
    have hperm := List.perm_insertionSort topLogprobLe toks
    refine ⟨List.sorted_insertionSort topLogprobLe toks, ?_, ?_⟩
    · have hmap : toks.map (fun x => x.token) = pairs.map Prod.fst := by
        simp [htoks, List.map_map]
      have hnd : (toks.map (fun x => x.token)).Nodup := by
        rw [hmap]
        exact collectMap_keys_nodup _
      exact ((hperm.map (fun x => x.token)).nodup_iff).mpr hnd
    · have hlen : toks.length ≤ 1 + t.top_tokens.length := by
        have h1 : pairs.length ≤ t.top_tokens.length + 1 := by
          simpa using collectMap_length_le
            (t.top_tokens.map (fun tt => (tt.text, tt.logprob)) ++
              [(t.text, t.logprob)])
        simp only [htoks, List.length_map]
        omega
      calc (List.insertionSort topLogprobLe toks).length
          = toks.length := hperm.length_eq
        _ ≤ 1 + t.top_tokens.length := hlen
  · rw [chatTopLogprobs, if_neg hn] at h
    exact absurd h (by simp)

/-- C5: for a non-empty token list and `n > 0`, the chat logprobs mapping
unions each token's `top_tokens` with the token itself, deduplicates by
token text and sorts ascending by logprob, so every per-token
`top_logprobs` list is sorted, has no duplicate token strings, and has
length at most `1 + len(top_tokens)`; for `n = 0` the per-token
`top_logprobs` is null; for an empty token list the whole logprobs object
is null. -/
theorem create_logprobs_spec (tokens : List TokenInfo) (n : ℕ) :
    create_logprobs [] n = none
    ∧ (tokens ≠ [] →
      ∃ lp, create_logprobs tokens n = some lp
        ∧ lp.content.length = tokens.length
        ∧ List.Forall₂ (fun (t : TokenInfo) (e : ChatCompletionLogprob) =>
            e.token = t.text
            ∧ e.logprob = t.logprob
            ∧ (n = 0 → e.top_logprobs = none)
            ∧ (∀ tl, e.top_logprobs = some tl →
                List.Pairwise topLogprobLe tl
                ∧ (tl.map (fun x => x.token)).Nodup
                ∧ tl.length ≤ 1 + t.top_tokens.length))
          tokens lp.content) := by
  refine ⟨rfl, fun hne => ?_⟩
  refine ⟨ChatCompletionLogprobs.mk
    (tokens.map fun token_info => chatLogprobEntry token_info n), ?_, ?_, ?_⟩
  · rw [create_logprobs, if_neg (by simpa using hne)]
  · simp
  · rw [List.forall₂_map_right_iff]
    rw [List.forall₂_same]
    intro t _
    refine ⟨rfl, rfl, fun h0 => ?_, fun tl htl => ?_⟩
    · simp [chatLogprobEntry, chatTopLogprobs, h0]
    · exact chatTopLogprobs_props t n tl htl

/-- Witness for the C5 theorem: the non-emptiness hypothesis discharged on
a concrete one-token list with one top token and `n = 1`. -/
theorem create_logprobs_spec_witness :
    ([TokenInfo.mk "a" (-1) [TopToken.mk "b" (-2)]] ≠ ([] : List TokenInfo))
    ∧ (∃ lp, create_logprobs [TokenInfo.mk "a" (-1) [TopToken.mk "b" (-2)]] 1 = some lp
        ∧ lp.content.length = [TokenInfo.mk "a" (-1) [TopToken.mk "b" (-2)]].length
        ∧ List.Forall₂ (fun (t : TokenInfo) (e : ChatCompletionLogprob) =>
            e.token = t.text
            ∧ e.logprob = t.logprob
            ∧ (1 = 0 → e.top_logprobs = none)
            ∧ (∀ tl, e.top_logprobs = some tl →
                List.Pairwise topLogprobLe tl
                ∧ (tl.map (fun x => x.token)).Nodup
                ∧ tl.length ≤ 1 + t.top_tokens.length))
          [TokenInfo.mk "a" (-1) [TopToken.mk "b" (-2)]] lp.content) :=
  ⟨by simp,
   (create_logprobs_spec [TokenInfo.mk "a" (-1) [TopToken.mk "b" (-2)]] 1).2 (by simp)⟩
